import Mathlib

/-!
Shallow embedding of the butler-groceries Meijer integration core:
`src/api/app/services/meijer.py` (MeijerClient) and
`src/api/app/routers/meijer.py` (match / sync orchestration).

Python dictionaries with optional keys become structures with `Option`
fields; network interaction with the remote catalog/cart service is an
oracle function from the issued request to an `HttpResult`; every
operation additionally returns the list of requests it issued so that
"no network call" properties are statable.  Monetary values (Python
floats holding prices) are modelled as exact rationals.
-/

/-- Python truthiness of an optional string: `None` and `""` are falsy. -/
def strOptTruthy : Option String → Bool
  | none => false
  | some s => !(s == "")

/-- Python truthiness of an optional numeric value: `None` and `0` are falsy. -/
def ratTruthy : Option ℚ → Bool
  | none => false
  | some v => !(v == 0)

/-- Python `a or b` over optional numerics: `a` when truthy, else `b` verbatim. -/
def pyOrQ (a b : Option ℚ) : Option ℚ :=
  if ratTruthy a then a else b

/-- Python `float(x) if x else None`: keep a truthy value, collapse falsy to `None`. -/
def pyTruthyQ (a : Option ℚ) : Option ℚ :=
  if ratTruthy a then a else none

/-- Python `str(x)` for an optional string (`f"{item.get('name')}"`): `None` prints as "None". -/
def pyStr : Option String → String
  | none => "None"
  | some s => s

/-- Python `s.replace(' ', '+')`: single-character replacement is a character map. -/
def plusEncode (s : String) : String :=
  String.mk (s.toList.map (fun ch => if ch = ' ' then '+' else ch))

/-- The `price` sub-dictionary of a raw catalog product (`p.get("price", {})`). -/
structure PriceInfo where
  salePrice : Option ℚ := none
  basePrice : Option ℚ := none
  price : Option ℚ := none
deriving DecidableEq

/-- A JSON value found under `aisleLocation` / `aisle`: absent-or-null, a
dictionary with optional `aisle` and `side` keys, or a free-text string. -/
inductive AisleVal where
  | absent : AisleVal
  | dict (aisleNo : Option String) (side : Option String) : AisleVal
  | str (s : String) : AisleVal
deriving DecidableEq

/-- Python truthiness of an `AisleVal` (empty dict and empty string are falsy). -/
def AisleVal.truthy : AisleVal → Bool
  | .absent => false
  | .dict a s => a.isSome || s.isSome
  | .str s => !(s == "")

/-- A raw product record as returned by the Meijer catalog search. -/
structure RawProduct where
  upc : Option String := none
  description : Option String := none
  name : Option String := none
  brand : Option String := none
  size : Option String := none
  packageSize : Option String := none
  price : Option PriceInfo := none
  aisleLocation : AisleVal := .absent
  aisle : AisleVal := .absent
  inStock : Option Bool := none
  imageUrl : Option String := none
  image : Option String := none
deriving DecidableEq

/-- The dictionary built by `MeijerClient.search_best_match` from the top raw result. -/
structure ProductMatch where
  upc : String
  description : String
  brand : String
  size : String
  price : Option ℚ
  price_regular : Option ℚ
  on_sale : Bool
  in_stock : Bool
  aisle : String
  image_url : String
  search_url : String
deriving DecidableEq

/-- Aisle rendering: `f"Aisle {..} {..}".strip()` for a dict, the string itself otherwise. -/
def aisleString : AisleVal → String
  | .dict a s => ("Aisle " ++ a.getD "" ++ " " ++ s.getD "").trim
  | .str s => s
  | .absent => ""

/-- Body of `search_best_match` past the guard: maps the top raw product `p`
into the match dictionary (price resolution via Python `or`, aisle
extraction, synthesized storefront search URL). -/
def mkProductMatch (ingredient_name : String) (p : RawProduct) : ProductMatch :=
  let price_info := p.price.getD {}
  let price := pyOrQ (pyOrQ price_info.salePrice price_info.basePrice) price_info.price
  let regular_price := pyOrQ price_info.basePrice price_info.price
  let aisle_info :=
    if (p.aisleLocation).truthy then p.aisleLocation
    else match p.aisle with
      | .absent => .dict none none
      | v => v
  { upc := p.upc.getD ""
    description := p.description.getD (p.name.getD "")
    brand := p.brand.getD ""
    size := p.size.getD (p.packageSize.getD "")
    price := pyTruthyQ price
    price_regular := pyTruthyQ regular_price
    on_sale := ratTruthy price_info.salePrice
    in_stock := p.inStock.getD true
    aisle := aisleString aisle_info
    image_url := p.imageUrl.getD (p.image.getD "")
    search_url := "https://www.meijer.com/shopping/search.html?s=" ++ plusEncode ingredient_name }

/-- Credential / client state (`MeijerClient.__init__` off the settings). -/
structure MeijerClient where
  auth_token : Option String := none
  refresh_token : Option String := none
  store_id : String := "217"
deriving DecidableEq

/-- `is_configured`: `bool(self._auth_token)`. -/
def MeijerClient.is_configured (c : MeijerClient) : Bool :=
  strOptTruthy c.auth_token

/-- Outcome of one remote HTTP call: a response with status and parsed body,
or a raised transport/timeout/parse exception carrying its message. -/
inductive HttpResult (β : Type) where
  | resp (status : Nat) (body : β) : HttpResult β
  | exn (detail : String) : HttpResult β
deriving DecidableEq

/-- Query parameters of the catalog search request. -/
structure SearchRequest where
  query : String
  storeId : String
  offset : String
  limit : String
deriving DecidableEq

/-- Parsed JSON body of a search response (`data.get("products", [])`). -/
structure SearchBody where
  products : Option (List RawProduct) := none
deriving DecidableEq

/-- `MeijerClient.search_products`: token-gated catalog search.  Returns the
product list together with the requests issued.  A 401, any non-2xx status
(httpx `raise_for_status` raises outside 200-299) or an exception degrades
to the empty list. -/
def MeijerClient.search_products (c : MeijerClient)
    (net : SearchRequest → HttpResult SearchBody)
    (term : String) (store_id : Option String) (limit : Nat) :
    List RawProduct × List SearchRequest :=
  if !c.is_configured then ([], [])
  else
    let sid := if strOptTruthy store_id then store_id.getD "" else c.store_id
    let req : SearchRequest := ⟨term, sid, "0", toString limit⟩
    match net req with
    | .exn _ => ([], [req])
    | .resp status body =>
      if status == 401 then ([], [req])
      else if status < 200 || 299 < status then ([], [req])
      else (body.products.getD [], [req])

/-- `MeijerClient.search_best_match`: search with limit 1, map the top hit. -/
def MeijerClient.search_best_match (c : MeijerClient)
    (net : SearchRequest → HttpResult SearchBody)
    (ingredient_name : String) (store_id : Option String) :
    Option ProductMatch × List SearchRequest :=
  let r := c.search_products net ingredient_name store_id 1
  match r.1 with
  | [] => (none, r.2)
  | p :: _ => (some (mkProductMatch ingredient_name p), r.2)

/-- One record of `match_ingredients` output: the fixed `ingredient` /
`matched` keys plus the spread `**(match or {})` product fields. -/
structure MatchRecord where
  ingredient : String
  matched : Bool
  product : Option ProductMatch
deriving DecidableEq

/-- `MeijerClient.match_ingredients`: one sequential best-match search per name. -/
def MeijerClient.match_ingredients (c : MeijerClient)
    (net : SearchRequest → HttpResult SearchBody)
    (ingredients : List String) (store_id : Option String) :
    List MatchRecord × List SearchRequest :=
  match ingredients with
  | [] => ([], [])
  | nm :: rest =>
    let r := c.search_best_match net nm store_id
    let rest2 := c.match_ingredients net rest store_id
    ({ ingredient := nm, matched := r.1.isSome, product := r.1 } :: rest2.1,
      r.2 ++ rest2.2)

/-- An opaque item of the remote shopping list (returned verbatim). -/
structure RawItem where
  payload : String
deriving DecidableEq

/-- Parsed JSON body of the list-read response (`resp.json().get("items", [])`). -/
structure ListBody where
  items : Option (List RawItem) := none
deriving DecidableEq

/-- `MeijerClient.get_shopping_list`: token-gated list read; the `Nat` counts
the GET requests issued (the request carries no parameters). -/
def MeijerClient.get_shopping_list (c : MeijerClient)
    (net : Unit → HttpResult ListBody) :
    List RawItem × Nat :=
  if !c.is_configured then ([], 0)
  else
    match net () with
    | .exn _ => ([], 1)
    | .resp status body =>
      if status == 401 then ([], 1)
      else if status < 200 || 299 < status then ([], 1)
      else (body.items.getD [], 1)

/-- An input item of `add_to_shopping_list` (`{"name": .., "quantity": ..}`). -/
structure ListItem where
  name : Option String := none
  quantity : Option ℚ := none
deriving DecidableEq

/-- JSON body of one `AddListItem` POST. -/
structure AddRequest where
  itemName : String
  quantity : ℚ
deriving DecidableEq

/-- The result dictionary of `add_to_shopping_list`; the configured path
fills `added`/`total`/`errors`, the unconfigured path only `error`. -/
structure AddResult where
  success : Bool
  added : Option Nat := none
  total : Option Nat := none
  errors : Option (List String) := none
  error : Option String := none
deriving DecidableEq

/-- The per-item loop of `add_to_shopping_list`: returns
(added count, error strings in order, requests issued in order). -/
def addLoop (net : AddRequest → HttpResult Unit) :
    List ListItem → Nat × List String × List AddRequest
  | [] => (0, [], [])
  | item :: rest =>
    let req : AddRequest := ⟨item.name.getD "", item.quantity.getD 1⟩
    let r := addLoop net rest
    match net req with
    | .resp status _ =>
      if status == 200 || status == 201 || status == 204 then
        (r.1 + 1, r.2.1, req :: r.2.2)
      else
        (r.1, (pyStr item.name ++ ": " ++ toString status) :: r.2.1, req :: r.2.2)
    | .exn detail =>
      (r.1, (pyStr item.name ++ ": " ++ detail) :: r.2.1, req :: r.2.2)

/-- `MeijerClient.add_to_shopping_list`: one POST per item, sequential;
failures accumulate as "name: detail" strings; `success` iff `added > 0`. -/
def MeijerClient.add_to_shopping_list (c : MeijerClient)
    (net : AddRequest → HttpResult Unit) (items : List ListItem) :
    AddResult × List AddRequest :=
  if !c.is_configured then
    ({ success := false, error := some "Meijer not configured" }, [])
  else
    let r := addLoop net items
    ({ success := decide (0 < r.1), added := some r.1, total := some items.length,
       errors := some r.2.1 }, r.2.2)

/-- One `RecipeIngredient` row as returned by the DB query (ordered by sort_order). -/
structure RecipeIngredient where
  ingredient_id : Option Nat := none
  raw_text : Option String := none
  quantity : Option ℚ := none
  unit : Option String := none
deriving DecidableEq

/-- What `ing_map.get(ri.ingredient_id)` yields: the id must be truthy (the
list comprehension filters on `if ri.ingredient_id`) and the Ingredient row
must exist in the table (modelled as a partial name lookup). -/
def lookupLinkedName (ingTable : Nat → Option String) : Option Nat → Option String
  | none => none
  | some i => if i == 0 then none else ingTable i

/-- The name-resolution block of `match_recipe_ingredients`:
`name = ing_map.get(id, "") or raw_text or ""` followed by the redundant
`if not ing_map.get(id) and raw_text: name = raw_text` re-check. -/
def resolveName (lk : Option String) (raw : Option String) : String :=
  let n1 :=
    if strOptTruthy lk then lk.getD ""
    else if strOptTruthy raw then raw.getD "" else ""
  if !(strOptTruthy lk) && strOptTruthy raw then raw.getD "" else n1

/-- One entry of the router's `search_items` list. -/
structure SearchItem where
  name : String
  quantity : Option ℚ
  unit : String
deriving DecidableEq

/-- A match record after the router's merge loop; `needed_quantity` /
`needed_unit` are `none` exactly when the merge skipped the index
(`if i < len(search_items)` false), and otherwise hold the raw values. -/
structure MergedRecord where
  ingredient : String
  matched : Bool
  product : Option ProductMatch
  needed_quantity : Option (Option ℚ) := none
  needed_unit : Option String := none
deriving DecidableEq

/-- Merge one match record with the search item at the same index, if any. -/
def mergeOne (m : MatchRecord) : Option SearchItem → MergedRecord
  | none => { ingredient := m.ingredient, matched := m.matched, product := m.product }
  | some s =>
    { ingredient := m.ingredient, matched := m.matched, product := m.product,
      needed_quantity := some s.quantity, needed_unit := some s.unit }

/-- The router's merge loop (`for i, m in enumerate(matches): if i < len(...)`). -/
def mergeNeeded : List MatchRecord → List SearchItem → List MergedRecord
  | [], _ => []
  | m :: ms, [] => mergeOne m none :: mergeNeeded ms []
  | m :: ms, s :: ss => mergeOne m (some s) :: mergeNeeded ms ss

/-- `m.get("price", 0) or 0` on a merged record: the price key exists only
when product fields were spread, and both a missing and a falsy value
collapse to 0. -/
def recordPrice (m : MergedRecord) : ℚ :=
  match m.product with
  | none => 0
  | some pr => pr.price.getD 0

/-- Round a rational to the nearest integer, ties to even (Python `round`). -/
def roundHalfEven (q : ℚ) : ℤ :=
  let f := Rat.floor q
  let r := q - (f : ℚ)
  if r < 1/2 then f
  else if (1/2 : ℚ) < r then f + 1
  else if f % 2 = 0 then f else f + 1

/-- `round(x, 2)`: two-decimal rounding. -/
def round2 (q : ℚ) : ℚ :=
  ((roundHalfEven (q * 100) : ℚ)) / 100

/-- The JSON object returned by the `/match/{recipe_id}` endpoint. -/
structure MatchResponse where
  recipe_id : Nat
  store_id : String
  matched : Nat
  total : Nat
  estimated_cost : ℚ
  items : List MergedRecord
deriving DecidableEq

/-- An `HTTPException(status, detail)` raised by the router. -/
inductive ApiError where
  | http (status : Nat) (detail : String) : ApiError
deriving DecidableEq

/-- The `search_items` list built by the router from the recipe's ingredient rows. -/
def buildSearchItems (ingTable : Nat → Option String)
    (recipe_ings : List RecipeIngredient) : List SearchItem :=
  recipe_ings.map (fun ri =>
    { name := resolveName (lookupLinkedName ingTable ri.ingredient_id) ri.raw_text,
      quantity := ri.quantity,
      unit := ri.unit.getD "" })

/-- `match_recipe_ingredients` (router): 404 on an empty ingredient list,
otherwise resolve names, run the Matcher, merge quantities back, and
aggregate matched count and rounded estimated cost.  Also returns the
catalog requests issued. -/
def match_recipe_ingredients (recipe_id : Nat)
    (recipe_ings : List RecipeIngredient) (ingTable : Nat → Option String)
    (c : MeijerClient) (net : SearchRequest → HttpResult SearchBody)
    (storeId : String) :
    Except ApiError (MatchResponse × List SearchRequest) :=
  if recipe_ings.isEmpty then
    .error (.http 404 "Recipe not found or has no ingredients")
  else
    let search_items := buildSearchItems ingTable recipe_ings
    let mr := c.match_ingredients net (search_items.map (·.name)) (some storeId)
    let merged := mergeNeeded mr.1 search_items
    let total_price := (merged.filter (·.matched)).foldl (fun a m => a + recordPrice m) 0
    let matched_count := (merged.filter (·.matched)).length
    .ok ({ recipe_id := recipe_id, store_id := storeId,
           matched := matched_count, total := merged.length,
           estimated_cost := round2 total_price, items := merged }, mr.2)

/-- `item.get("description") or item["ingredient"]`: a spread description is
used when truthy, otherwise the ingredient name. -/
def listItemName (m : MergedRecord) : String :=
  match m.product with
  | none => m.ingredient
  | some pr => if pr.description == "" then m.ingredient else pr.description

/-- The partition loop of `add_recipe_to_list`: matched records become list
items (quantity fixed at 1), unmatched records contribute their ingredient
name to `skipped`; both lists keep input order. -/
def buildListItems : List MergedRecord → List ListItem × List String
  | [] => ([], [])
  | m :: ms =>
    let r := buildListItems ms
    if m.matched then
      ({ name := some (listItemName m), quantity := some 1 } :: r.1, r.2)
    else
      (r.1, m.ingredient :: r.2)

/-- The JSON object returned by the `/list/add/{recipe_id}` endpoint. -/
structure SyncResponse where
  success : Bool
  added : Nat
  skipped : List String
  estimated_cost : ℚ
  message : String
  items : List MergedRecord
deriving DecidableEq

/-- `add_recipe_to_list` (router): match (propagating its 404), partition,
400 when nothing matched, else push via the client and summarize.  Also
returns the AddListItem requests issued. -/
def add_recipe_to_list (recipe_id : Nat)
    (recipe_ings : List RecipeIngredient) (ingTable : Nat → Option String)
    (c : MeijerClient) (netS : SearchRequest → HttpResult SearchBody)
    (netA : AddRequest → HttpResult Unit) (storeId : String) :
    Except ApiError (SyncResponse × List AddRequest) :=
  match match_recipe_ingredients recipe_id recipe_ings ingTable c netS storeId with
  | .error e => .error e
  | .ok md =>
    let bl := buildListItems md.1.items
    if bl.1.isEmpty then
      .error (.http 400 "No products matched — nothing to add")
    else
      let r := c.add_to_shopping_list netA bl.1
      .ok ({ success := r.1.success,
             added := r.1.added.getD 0,
             skipped := bl.2,
             estimated_cost := md.1.estimated_cost,
             message := "Added " ++ toString (r.1.added.getD 0) ++ " items to Meijer list",
             items := md.1.items }, r.2)

/-! ### Spec-side characterizations and comparison definitions -/

/-- The POST body issued for one input item. -/
def addReqOf (it : ListItem) : AddRequest :=
  ⟨it.name.getD "", it.quantity.getD 1⟩

/-- Whether the remote call for one item counts as added (status 200/201/204). -/
def addOk (net : AddRequest → HttpResult Unit) (it : ListItem) : Bool :=
  match net (addReqOf it) with
  | .resp st _ => st == 200 || st == 201 || st == 204
  | .exn _ => false

/-- The error string one item contributes when its remote call fails. -/
def addErr (net : AddRequest → HttpResult Unit) (it : ListItem) : Option String :=
  match net (addReqOf it) with
  | .resp st _ =>
    if st == 200 || st == 201 || st == 204 then none
    else some (pyStr it.name ++ ": " ++ toString st)
  | .exn d => some (pyStr it.name ++ ": " ++ d)

/-- Modelled from the spec: the price-resolution rule as the spec words it
("use sale price if present, else base/regular price, else generic price
field"), where "present" is key presence.  Kept for comparison against
`mkProductMatch`, which uses Python truthiness instead. -/
def specResolvedPrice (pi : PriceInfo) : Option ℚ :=
  match pi.salePrice with
  | some v => some v
  | none =>
    match pi.basePrice with
    | some w => some w
    | none => pi.price

/-- Modelled from the spec: "on sale is true iff a (distinct) sale price was
present", read as presence of the sale-price field. -/
def specOnSale (pi : PriceInfo) : Bool :=
  pi.salePrice.isSome

/-- Sum of the resolved price over matched records, missing price as zero. -/
def matchedPriceSum (items : List MergedRecord) : ℚ :=
  ((items.filter (·.matched)).map recordPrice).sum

/-- A remote outcome that the spec classifies as a failure: a 401, any
non-2xx status, or a transport/timeout exception. -/
def httpFailure {β : Type} : HttpResult β → Prop
  | .resp st _ => st < 200 ∨ 299 < st
  | .exn _ => True

/-! ### Concrete inputs used by the witnesses -/

/-- A configured client. -/
def cliW : MeijerClient :=
  { auth_token := some "tok", store_id := "217" }

/-- An unconfigured client (empty access token normalizes to `None`). -/
def cliN : MeijerClient :=
  { auth_token := none, store_id := "217" }

/-- A catalog oracle that always times out. -/
def netFailS : SearchRequest → HttpResult SearchBody :=
  fun _ => .exn "timeout"

/-- A list-read oracle that always times out. -/
def netFailL : Unit → HttpResult ListBody :=
  fun _ => .exn "timeout"

/-- An add oracle that always raises. -/
def netFailA : AddRequest → HttpResult Unit :=
  fun _ => .exn "down"

/-- Items A, B, C for the bulk-add witness. -/
def itemsC3 : List ListItem :=
  [{ name := some "A", quantity := some 1 },
   { name := some "B", quantity := some 1 },
   { name := some "C", quantity := some 1 }]

/-- An add oracle that fails item B with a 500 and accepts the rest. -/
def netC3 : AddRequest → HttpResult Unit :=
  fun rq => if rq.itemName == "B" then .resp 500 () else .resp 200 ()

/-- A single unlinked recipe ingredient with raw text "flour". -/
def riW : RecipeIngredient :=
  { ingredient_id := none, raw_text := some "flour", quantity := some 2, unit := some "cups" }

/-- One-ingredient recipe used by several witnesses. -/
def ingsW : List RecipeIngredient := [riW]

/-- An ingredient table with no rows. -/
def tblW : Nat → Option String := fun _ => none

/-- An ingredient table holding id 7 with an empty name. -/
def tblC7 : Nat → Option String :=
  fun i => if i == 7 then some "" else none

/-- Extract the payload of a successful match call, or a default. -/
def matchOkOr (e : Except ApiError (MatchResponse × List SearchRequest))
    (d : MatchResponse × List SearchRequest) : MatchResponse × List SearchRequest :=
  match e with
  | .ok v => v
  | .error _ => d

/-- Default match response used only as a `matchOkOr` fallback. -/
def dfltMatchResponse : MatchResponse :=
  { recipe_id := 0, store_id := "", matched := 0, total := 0, estimated_cost := 0, items := [] }

/-- Default merged record used only as a lookup fallback. -/
def dfltMerged : MergedRecord :=
  { ingredient := "", matched := false, product := none }

/-- The match call of the all-unmatched witness scenario. -/
def mrW : Except ApiError (MatchResponse × List SearchRequest) :=
  match_recipe_ingredients 1 ingsW tblW cliW netFailS "217"

/-- Its response. -/
def respW : MatchResponse := (matchOkOr mrW (dfltMatchResponse, [])).1

/-- Its request trace. -/
def trW : List SearchRequest := (matchOkOr mrW (dfltMatchResponse, [])).2

/-- Its first merged record. -/
def mW : MergedRecord := (respW.items.get? 0).getD dfltMerged

/-- Three-ingredient recipe (raw texts "aa", "bb", "cc") for the cost witness. -/
def ingsC5 : List RecipeIngredient :=
  [{ ingredient_id := none, raw_text := some "aa", quantity := some 1, unit := none },
   { ingredient_id := none, raw_text := some "bb", quantity := some 1, unit := none },
   { ingredient_id := none, raw_text := some "cc", quantity := some 1, unit := none }]

/-- Catalog oracle for the cost witness: "aa" matches a 1.99 product, "cc" a
3.50 product, everything else times out (so "bb" stays unmatched). -/
def netC5 : SearchRequest → HttpResult SearchBody :=
  fun rq =>
    if rq.query == "aa" then
      .resp 200 { products := some [{ description := some "ProdA",
                                      price := some { basePrice := some (199/100) } }] }
    else if rq.query == "cc" then
      .resp 200 { products := some [{ description := some "ProdC",
                                      price := some { basePrice := some (7/2) } }] }
    else .exn "down"

/-- The match call of the cost witness scenario. -/
def mrC5 : Except ApiError (MatchResponse × List SearchRequest) :=
  match_recipe_ingredients 1 ingsC5 tblW cliW netC5 "217"

/-- Its response. -/
def respC5 : MatchResponse := (matchOkOr mrC5 (dfltMatchResponse, [])).1

/-- Its request trace. -/
def trC5 : List SearchRequest := (matchOkOr mrC5 (dfltMatchResponse, [])).2

/-- Price dictionary with a zero sale price next to a 3.00 base price. -/
def priceC2z : PriceInfo := { salePrice := some 0, basePrice := some 3 }

/-- Raw product carrying `priceC2z`. -/
def prodC2z : RawProduct := { price := some priceC2z }

/-- Price dictionary of the spec's first example: salePrice 2.50, basePrice 3.00. -/
def priceEx1 : PriceInfo := { salePrice := some (5/2), basePrice := some 3 }

/-- Raw product carrying `priceEx1`. -/
def prodEx1 : RawProduct := { price := some priceEx1 }

/-- Price dictionary of the spec's second example: basePrice 3.00 only. -/
def priceEx2 : PriceInfo := { basePrice := some 3 }

/-- Raw product carrying `priceEx2`. -/
def prodEx2 : RawProduct := { price := some priceEx2 }

/-- Raw product with no stock information. -/
def prodW10 : RawProduct := { description := some "Milk" }

/-! ### Auxiliary lemmas -/

/-- The Matcher keeps the input names, in order, as the `ingredient` fields. -/
theorem aux_match_ingredients_map (c : MeijerClient)
    (net : SearchRequest → HttpResult SearchBody) (sid : Option String) :
    ∀ names : List String,
      ((c.match_ingredients net names sid).1).map MatchRecord.ingredient = names := by
  intro names
  induction names with
  | nil => simp [MeijerClient.match_ingredients]
  | cons nm rest ih => simp [MeijerClient.match_ingredients, ih]

/-- The Matcher output has the length of its input. -/
theorem aux_match_ingredients_length (c : MeijerClient)
    (net : SearchRequest → HttpResult SearchBody) (sid : Option String)
    (names : List String) :
    ((c.match_ingredients net names sid).1).length = names.length := by
  have h := congrArg List.length (aux_match_ingredients_map c net sid names)
  simpa using h

/-- The merge loop does not change the list length. -/
theorem aux_mergeNeeded_length :
    ∀ (ms : List MatchRecord) (ss : List SearchItem),
      (mergeNeeded ms ss).length = ms.length := by
  intro ms
  induction ms with
  | nil => intro ss; cases ss <;> simp [mergeNeeded]
  | cons m ms ih => intro ss; cases ss <;> simp [mergeNeeded, ih]

/-- The merge loop preserves the `ingredient` fields. -/
theorem aux_mergeNeeded_map :
    ∀ (ms : List MatchRecord) (ss : List SearchItem),
      (mergeNeeded ms ss).map MergedRecord.ingredient = ms.map MatchRecord.ingredient := by
  intro ms
  induction ms with
  | nil => intro ss; cases ss <;> simp [mergeNeeded]
  | cons m ms ih =>
    intro ss
    cases ss <;> simp [mergeNeeded, mergeOne, ih]

/-- Index-wise description of the merge loop. -/
theorem aux_mergeNeeded_getElem? :
    ∀ (ms : List MatchRecord) (ss : List SearchItem) (i : Nat),
      (mergeNeeded ms ss)[i]? = (ms[i]?).map (fun m => mergeOne m ss[i]?) := by
  intro ms
  induction ms with
  | nil => intro ss i; cases ss <;> simp [mergeNeeded]
  | cons m ms ih =>
    intro ss i
    cases ss with
    | nil => cases i <;> simp [mergeNeeded, ih]
    | cons s ss => cases i <;> simp [mergeNeeded, ih]

/-- When no record matched, the partition yields no list items and skips
every ingredient name, in order. -/
theorem aux_buildListItems_unmatched :
    ∀ items : List MergedRecord, (∀ m ∈ items, m.matched = false) →
      buildListItems items = ([], items.map MergedRecord.ingredient) := by
  intro items
  induction items with
  | nil => intro _; simp [buildListItems]
  | cons m ms ih =>
    intro h
    have hm : m.matched = false := h m (by simp)
    have hrest := ih (fun x hx => h x (by simp [hx]))
    simp [buildListItems, hm, hrest]

/-- The cost fold computes the sum of the mapped prices. -/
theorem aux_foldl_price :
    ∀ (l : List MergedRecord) (a : ℚ),
      l.foldl (fun a m => a + recordPrice m) a = a + (l.map recordPrice).sum := by
  intro l
  induction l with
  | nil => intro a; simp
  | cons m ms ih => intro a; simp [ih, add_assoc]

/-- Full description of the bulk-add loop: added count, error strings and
issued requests, each as a comprehension over the input items. -/
theorem aux_addLoop (net : AddRequest → HttpResult Unit) :
    ∀ items : List ListItem,
      addLoop net items =
        ((items.filter (fun it => addOk net it)).length,
         items.filterMap (addErr net),
         items.map addReqOf) := by
  intro items
  induction items with
  | nil => simp [addLoop]
  | cons it rest ih =>
    simp only [addLoop, ih, addReqOf]
    cases hn : net ⟨it.name.getD "", it.quantity.getD 1⟩ with
    | resp st body =>
      by_cases hst : (st == 200 || st == 201 || st == 204) = true
      · simp [hn, hst, addOk, addErr, addReqOf, List.filter_cons]
      · simp [hn, hst, addOk, addErr, addReqOf, List.filter_cons]
    | exn d =>
      simp [hn, addOk, addErr, addReqOf, List.filter_cons]

/-- The merged record list the match endpoint produces past its 404 guard. -/
def routerMatches (ings : List RecipeIngredient) (tbl : Nat → Option String)
    (c : MeijerClient) (net : SearchRequest → HttpResult SearchBody)
    (storeId : String) : List MergedRecord :=
  mergeNeeded
    (c.match_ingredients net ((buildSearchItems tbl ings).map (·.name)) (some storeId)).1
    (buildSearchItems tbl ings)

/-- The match endpoint on a non-empty ingredient list, written out. -/
theorem aux_match_ok (rid : Nat) (ings : List RecipeIngredient)
    (tbl : Nat → Option String) (c : MeijerClient)
    (net : SearchRequest → HttpResult SearchBody) (storeId : String)
    (h : ings ≠ []) :
    match_recipe_ingredients rid ings tbl c net storeId =
      .ok ({ recipe_id := rid, store_id := storeId,
             matched := ((routerMatches ings tbl c net storeId).filter (·.matched)).length,
             total := (routerMatches ings tbl c net storeId).length,
             estimated_cost := round2
               (((routerMatches ings tbl c net storeId).filter (·.matched)).foldl
                 (fun a m => a + recordPrice m) 0),
             items := routerMatches ings tbl c net storeId },
           (c.match_ingredients net ((buildSearchItems tbl ings).map (·.name)) (some storeId)).2) := by
  unfold match_recipe_ingredients
  rw [if_neg (by simp [List.isEmpty_iff, h])]
  rfl

/-- Inversion of a successful match call. -/
theorem aux_match_ok_inv (rid : Nat) (ings : List RecipeIngredient)
    (tbl : Nat → Option String) (c : MeijerClient)
    (net : SearchRequest → HttpResult SearchBody) (storeId : String)
    (resp : MatchResponse) (tr : List SearchRequest)
    (hok : match_recipe_ingredients rid ings tbl c net storeId = .ok (resp, tr)) :
    ings ≠ []
    ∧ resp.items = routerMatches ings tbl c net storeId
    ∧ resp.estimated_cost = round2
        (((routerMatches ings tbl c net storeId).filter (·.matched)).foldl
          (fun a m => a + recordPrice m) 0) := by
  have hne : ings ≠ [] := by
    intro he
    subst he
    simp [match_recipe_ingredients] at hok
  rw [aux_match_ok rid ings tbl c net storeId hne, Except.ok.injEq, Prod.mk.injEq] at hok
  obtain ⟨h1, -⟩ := hok
  subst h1
  exact ⟨hne, rfl, rfl⟩

/-! ### Claim theorems -/

/-- Claim C4: if the access token is empty (the client is not configured),
then for every input `search_products` returns an empty list,
`get_shopping_list` returns an empty list, and `add_to_shopping_list`
returns a not-configured failure, in all three cases without issuing any
network call. -/
theorem C4_not_configured_noop (c : MeijerClient) (h : c.is_configured = false)
    (netS : SearchRequest → HttpResult SearchBody) (netL : Unit → HttpResult ListBody)
    (netA : AddRequest → HttpResult Unit) (term : String) (sid : Option String)
    (limit : Nat) (items : List ListItem) :
    c.search_products netS term sid limit = ([], [])
    ∧ c.get_shopping_list netL = ([], 0)
    ∧ c.add_to_shopping_list netA items
        = ({ success := false, added := none, total := none, errors := none,
             error := some "Meijer not configured" }, []) := by
  refine ⟨?_, ?_, ?_⟩ <;>
    simp [MeijerClient.search_products, MeijerClient.get_shopping_list,
      MeijerClient.add_to_shopping_list, h]

/-- Witness for C4 at an unconfigured client and concrete inputs. -/
theorem C4_witness :
    cliN.is_configured = false
    ∧ (cliN.search_products netFailS "milk" none 5 = ([], [])
       ∧ cliN.get_shopping_list netFailL = ([], 0)
       ∧ cliN.add_to_shopping_list netFailA itemsC3
           = ({ success := false, added := none, total := none, errors := none,
                error := some "Meijer not configured" }, [])) :=
  ⟨rfl, C4_not_configured_noop cliN rfl netFailS netFailL netFailA "milk" none 5 itemsC3⟩

/-- Claim C9: a configured client called with an empty item list reports
overall failure with zero counts, no errors, and no network call. -/
theorem C9_empty_add_overall_failure (c : MeijerClient)
    (net : AddRequest → HttpResult Unit) (h : c.is_configured = true) :
    c.add_to_shopping_list net []
      = ({ success := false, added := some 0, total := some 0, errors := some [],
           error := none }, []) := by
  simp [MeijerClient.add_to_shopping_list, addLoop, h]

/-- Witness for C9 at a configured client. -/
theorem C9_witness :
    cliW.is_configured = true
    ∧ cliW.add_to_shopping_list netFailA []
        = ({ success := false, added := some 0, total := some 0, errors := some [],
             error := none }, []) :=
  ⟨rfl, C9_empty_add_overall_failure cliW netFailA rfl⟩

/-- Claim C10: a raw product without an inStock field is reported in stock;
in_stock is false only when the catalog explicitly reports false. -/
theorem C10_in_stock_default (nm : String) (p : RawProduct) (h : p.inStock = none) :
    (mkProductMatch nm p).in_stock = true
    ∧ ∀ (nm2 : String) (q : RawProduct),
        (mkProductMatch nm2 q).in_stock = false → q.inStock = some false := by
  constructor
  · simp [mkProductMatch, h]
  · intro nm2 q hq
    cases hins : q.inStock with
    | none => simp [mkProductMatch, hins] at hq
    | some b =>
      cases b with
      | false => rfl
      | true => simp [mkProductMatch, hins] at hq

/-- Witness for C10 at a product lacking stock information. -/
theorem C10_witness :
    (mkProductMatch "milk" prodW10).in_stock = true :=
  (C10_in_stock_default "milk" prodW10 rfl).1

/-- Claim C7: the orchestrator prefers the linked catalog-ingredient name and
falls back to the ingredient's raw text, including when a link exists but
its name is empty; a link to name "" with raw text "2 cups flour"
resolves to "2 cups flour". -/
theorem C7_display_name_fallback (tbl : Nat → Option String) (h7 : tbl 7 = some "") :
    resolveName (lookupLinkedName tbl (some 7)) (some "2 cups flour") = "2 cups flour"
    ∧ (∀ lk raw : Option String, strOptTruthy lk = true →
        resolveName lk raw = lk.getD "")
    ∧ (∀ lk raw : Option String, strOptTruthy lk = false → strOptTruthy raw = true →
        resolveName lk raw = raw.getD "") := by
  refine ⟨?_, ?_, ?_⟩
  · simp [resolveName, lookupLinkedName, h7, strOptTruthy]
  · intro lk raw hlk
    simp [resolveName, hlk]
  · intro lk raw hlk hraw
    simp [resolveName, hlk, hraw]

/-- Witness for C7 at a table holding id 7 with an empty name. -/
theorem C7_witness :
    resolveName (lookupLinkedName tblC7 (some 7)) (some "2 cups flour") = "2 cups flour" :=
  (C7_display_name_fallback tblC7 rfl).1

/-- Claim C8: for every behaviour of the remote service that is a failure
(401, non-2xx status, transport exception or timeout), search_products and
get_shopping_list return an empty list; no exception propagates. -/
theorem C8_failures_degrade_to_empty (c : MeijerClient)
    (netS : SearchRequest → HttpResult SearchBody) (netL : Unit → HttpResult ListBody)
    (term : String) (sid : Option String) (limit : Nat)
    (hS : ∀ rq, httpFailure (netS rq)) (hL : httpFailure (netL ())) :
    (c.search_products netS term sid limit).1 = []
    ∧ (c.get_shopping_list netL).1 = [] := by
  constructor
  · unfold MeijerClient.search_products
    cases hc : c.is_configured with
    | false => simp
    | true =>
      have h := hS ⟨term, if strOptTruthy sid then sid.getD "" else c.store_id, "0",
        toString limit⟩
      cases hn : netS ⟨term, if strOptTruthy sid then sid.getD "" else c.store_id, "0",
          toString limit⟩ with
      | exn d => simp [hc, hn]
      | resp st body =>
        rw [hn] at h
        by_cases hb : st = 401
        · subst hb; simp [hc, hn]
        · rcases h with h2 | h2 <;> simp [hc, hn, hb, h2]
  · unfold MeijerClient.get_shopping_list
    cases hc : c.is_configured with
    | false => simp
    | true =>
      cases hn : netL () with
      | exn d => simp [hc, hn]
      | resp st body =>
        have h := hL
        rw [hn] at h
        by_cases hb : st = 401
        · subst hb; simp [hc, hn]
        · rcases h with h2 | h2 <;> simp [hc, hn, hb, h2]

/-- Witness for C8 at a timing-out remote service. -/
theorem C8_witness :
    (cliW.search_products netFailS "milk" none 5).1 = []
    ∧ (cliW.get_shopping_list netFailL).1 = [] :=
  C8_failures_degrade_to_empty cliW netFailS netFailL "milk" none 5
    (fun _ => True.intro) True.intro

/-- Claim C2 counterexample: at price data {salePrice: 0, basePrice: 3.00}
the code resolves price 3.00 with on_sale false (Python `or` skips the
falsy zero sale price), while the claim's present-based rule gives price 0
with on_sale true. -/
theorem C2_counterexample :
    ¬ ((mkProductMatch "x" prodC2z).price = specResolvedPrice priceC2z
       ∧ (mkProductMatch "x" prodC2z).on_sale = specOnSale priceC2z) := by
  decide

/-- Claim C2 as amended: the price is the sale price if present and nonzero,
else the base price if present and nonzero, else the generic price field
if present and nonzero, and absent when all are absent or zero; on_sale is
true iff a nonzero sale price is present.  The claim's two examples hold
as stated. -/
theorem C2_price_resolution_amended (nm : String) (p : RawProduct) (pi : PriceInfo)
    (hp : p.price = some pi) :
    ((mkProductMatch nm p).on_sale = true ↔ ∃ v : ℚ, pi.salePrice = some v ∧ v ≠ 0)
    ∧ (∀ v : ℚ, pi.salePrice = some v → v ≠ 0 → (mkProductMatch nm p).price = some v)
    ∧ (∀ w : ℚ, (pi.salePrice = none ∨ pi.salePrice = some 0) → pi.basePrice = some w →
        w ≠ 0 → (mkProductMatch nm p).price = some w)
    ∧ (∀ u : ℚ, (pi.salePrice = none ∨ pi.salePrice = some 0) →
        (pi.basePrice = none ∨ pi.basePrice = some 0) → pi.price = some u → u ≠ 0 →
        (mkProductMatch nm p).price = some u)
    ∧ ((pi.salePrice = none ∨ pi.salePrice = some 0) →
        (pi.basePrice = none ∨ pi.basePrice = some 0) →
        (pi.price = none ∨ pi.price = some 0) →
        (mkProductMatch nm p).price = none)
    ∧ (mkProductMatch "x" prodEx1).price = some (5/2)
    ∧ (mkProductMatch "x" prodEx1).on_sale = true
    ∧ (mkProductMatch "x" prodEx2).price = some 3
    ∧ (mkProductMatch "x" prodEx2).on_sale = false := by
  have hex : (mkProductMatch "x" prodEx1).price = some (5/2)
      ∧ (mkProductMatch "x" prodEx1).on_sale = true
      ∧ (mkProductMatch "x" prodEx2).price = some 3
      ∧ (mkProductMatch "x" prodEx2).on_sale = false := by
    refine ⟨?_, ?_, ?_, ?_⟩ <;>
      norm_num [mkProductMatch, prodEx1, prodEx2, priceEx1, priceEx2,
        pyTruthyQ, pyOrQ, ratTruthy]
  refine ⟨?_, ?_, ?_, ?_, ?_, hex.1, hex.2.1, hex.2.2.1, hex.2.2.2⟩
  · cases hsp : pi.salePrice with
    | none => simp [mkProductMatch, hp, hsp, ratTruthy]
    | some v =>
      by_cases hv : v = 0
      · subst hv; simp [mkProductMatch, hp, hsp, ratTruthy]
      · simp [mkProductMatch, hp, hsp, ratTruthy, hv]
  · intro v hv hv0
    simp [mkProductMatch, hp, hv, pyTruthyQ, pyOrQ, ratTruthy, hv0]
  · intro w hsp hb hw0
    rcases hsp with hsp | hsp <;>
      simp [mkProductMatch, hp, hsp, hb, pyTruthyQ, pyOrQ, ratTruthy, hw0]
  · intro u hsp hb hu hu0
    rcases hsp with hsp | hsp <;> rcases hb with hb | hb <;>
      simp [mkProductMatch, hp, hsp, hb, hu, pyTruthyQ, pyOrQ, ratTruthy, hu0]
  · intro hsp hb hpp
    rcases hsp with hsp | hsp <;> rcases hb with hb | hb <;> rcases hpp with hpp | hpp <;>
      simp [mkProductMatch, hp, hsp, hb, hpp, pyTruthyQ, pyOrQ, ratTruthy]

/-- Witness for the amended C2 at the spec's first example. -/
theorem C2_witness :
    (mkProductMatch "x" prodEx1).price = some (5/2)
    ∧ (mkProductMatch "x" prodEx1).on_sale = true :=
  ⟨(C2_price_resolution_amended "x" prodEx1 priceEx1 rfl).2.2.2.2.2.1,
   (C2_price_resolution_amended "x" prodEx1 priceEx1 rfl).2.2.2.2.2.2.1⟩

/-- Claim C3: for a configured client and a non-empty item list, every item
is attempted in order; added counts the items with status 200/201/204;
total is the input length; each failing item contributes one
"name: detail" error string in order; success iff at least one added. -/
theorem C3_partial_add (c : MeijerClient) (net : AddRequest → HttpResult Unit)
    (items : List ListItem) (hc : c.is_configured = true) (hne : items ≠ []) :
    (c.add_to_shopping_list net items).2 = items.map addReqOf
    ∧ (c.add_to_shopping_list net items).1.added
        = some (items.filter (fun it => addOk net it)).length
    ∧ (c.add_to_shopping_list net items).1.total = some items.length
    ∧ (c.add_to_shopping_list net items).1.errors
        = some (items.filterMap (addErr net))
    ∧ ((c.add_to_shopping_list net items).1.success = true
        ↔ 0 < (items.filter (fun it => addOk net it)).length) := by
  have hl := aux_addLoop net items
  refine ⟨?_, ?_, ?_, ?_, ?_⟩ <;>
    simp [MeijerClient.add_to_shopping_list, hc, hl]

/-- Witness for C3: items [A, B, C] with B failing with a 500 yield
added = 2, errors = ["B: 500"], success = true. -/
theorem C3_witness :
    (cliW.add_to_shopping_list netC3 itemsC3).1.added = some 2
    ∧ (cliW.add_to_shopping_list netC3 itemsC3).1.errors = some ["B: 500"]
    ∧ (cliW.add_to_shopping_list netC3 itemsC3).1.success = true := by
  have h := C3_partial_add cliW netC3 itemsC3 rfl (by decide)
  refine ⟨h.2.1.trans (by decide), h.2.2.2.1.trans (by decide), ?_⟩
  exact h.2.2.2.2.mpr (by decide)

/-- Rat.floor agrees with the floor of the FloorRing instance on ℚ. -/
theorem aux_ratFloor_eq (q : ℚ) : Rat.floor q = ⌊q⌋ := rfl

/-- Two-decimal rounding is the identity on exact two-decimal rationals. -/
theorem aux_round2_fixed (q : ℚ) (k : ℤ) (h : q * 100 = (k : ℚ)) : round2 q = q := by
  have hq : q = (k : ℚ) / 100 := by
    rw [eq_div_iff (by norm_num : (100:ℚ) ≠ 0)]
    exact h
  unfold round2 roundHalfEven
  rw [h, aux_ratFloor_eq, Int.floor_intCast]
  norm_num
  exact hq.symm

/-- Claim C1: the Matcher returns one record per input name, in order, with
record i's ingredient equal to input name i; and after the orchestrator's
merge step record i carries the needed quantity and unit of input
ingredient i, matched or not. -/
theorem C1_parallel_outputs (c : MeijerClient)
    (net : SearchRequest → HttpResult SearchBody) (names : List String)
    (sid : Option String) (rid : Nat) (ings : List RecipeIngredient)
    (tbl : Nat → Option String) (storeId : String)
    (resp : MatchResponse) (tr : List SearchRequest)
    (hok : match_recipe_ingredients rid ings tbl c net storeId = .ok (resp, tr)) :
    ((c.match_ingredients net names sid).1.length = names.length
     ∧ ∀ i : Nat, ((c.match_ingredients net names sid).1[i]?).map MatchRecord.ingredient
         = names[i]?)
    ∧ resp.items.length = ings.length
    ∧ ∀ (i : Nat) (ri : RecipeIngredient) (m : MergedRecord),
        ings[i]? = some ri → resp.items[i]? = some m →
        m.ingredient = resolveName (lookupLinkedName tbl ri.ingredient_id) ri.raw_text
        ∧ m.needed_quantity = some ri.quantity
        ∧ m.needed_unit = some (ri.unit.getD "") := by
  obtain ⟨hne, hitems, -⟩ := aux_match_ok_inv rid ings tbl c net storeId resp tr hok
  refine ⟨⟨aux_match_ingredients_length c net sid names, ?_⟩, ?_, ?_⟩
  · intro i
    conv_rhs => rw [← aux_match_ingredients_map c net sid names]
    rw [List.getElem?_map]
  · rw [hitems]
    unfold routerMatches
    rw [aux_mergeNeeded_length, aux_match_ingredients_length]
    simp [buildSearchItems]
  · intro i ri m hri hm
    rw [hitems] at hm
    unfold routerMatches at hm
    rw [aux_mergeNeeded_getElem?] at hm
    have hss : (buildSearchItems tbl ings)[i]?
        = some ({ name := resolveName (lookupLinkedName tbl ri.ingredient_id) ri.raw_text,
                  quantity := ri.quantity, unit := ri.unit.getD "" } : SearchItem) := by
      simp [buildSearchItems, List.getElem?_map, hri]
    rw [hss] at hm
    cases hms : (c.match_ingredients net ((buildSearchItems tbl ings).map (·.name))
        (some storeId)).1[i]? with
    | none => rw [hms] at hm; simp at hm
    | some m2 =>
      rw [hms] at hm
      simp only [Option.map_some'] at hm
      have hm2 : m = mergeOne m2
          (some { name := resolveName (lookupLinkedName tbl ri.ingredient_id) ri.raw_text,
                  quantity := ri.quantity, unit := ri.unit.getD "" }) := by
        exact (Option.some.inj hm).symm
      have h3 : ((c.match_ingredients net ((buildSearchItems tbl ings).map (·.name))
          (some storeId)).1[i]?).map MatchRecord.ingredient
          = ((buildSearchItems tbl ings).map (·.name))[i]? := by
        conv_rhs => rw [← aux_match_ingredients_map c net (some storeId)
          ((buildSearchItems tbl ings).map (·.name))]
        rw [List.getElem?_map]
      rw [hms, List.getElem?_map, hss] at h3
      simp only [Option.map_some'] at h3
      have hing : m2.ingredient
          = resolveName (lookupLinkedName tbl ri.ingredient_id) ri.raw_text := by
        exact Option.some.inj h3
      subst hm2
      refine ⟨?_, ?_, ?_⟩ <;> simp [mergeOne, hing]

/-- Witness for C1 at a one-ingredient recipe with a failing catalog. -/
theorem C1_witness :
    (cliW.match_ingredients netFailS ["flour"] none).1.length = 1
    ∧ respW.items.length = 1
    ∧ mW.ingredient = "flour"
    ∧ mW.needed_quantity = some (some 2)
    ∧ mW.needed_unit = some "cups" := by
  have h := C1_parallel_outputs cliW netFailS ["flour"] none 1 ingsW tblW "217"
    respW trW rfl
  have hm := h.2.2 0 riW mW rfl rfl
  exact ⟨h.1.1, h.2.1, hm.1.trans (by decide), hm.2.1, hm.2.2⟩

/-- Claim C5: the match endpoint's estimated cost is the two-decimal rounding
of the sum of prices over matched records (missing price as zero), and the
sync endpoint carries that value unchanged from the match step. -/
theorem C5_cost_aggregation (rid : Nat) (ings : List RecipeIngredient)
    (tbl : Nat → Option String) (c : MeijerClient)
    (netS : SearchRequest → HttpResult SearchBody) (storeId : String)
    (resp : MatchResponse) (tr : List SearchRequest)
    (hok : match_recipe_ingredients rid ings tbl c netS storeId = .ok (resp, tr)) :
    resp.estimated_cost = round2 (matchedPriceSum resp.items)
    ∧ ∀ (netA : AddRequest → HttpResult Unit) (sresp : SyncResponse)
        (atr : List AddRequest),
        add_recipe_to_list rid ings tbl c netS netA storeId = .ok (sresp, atr) →
        sresp.estimated_cost = resp.estimated_cost := by
  obtain ⟨hne, hitems, hcost⟩ := aux_match_ok_inv rid ings tbl c netS storeId resp tr hok
  constructor
  · rw [hcost, hitems]
    unfold matchedPriceSum
    rw [aux_foldl_price, zero_add]
  · intro netA sresp atr hsync
    unfold add_recipe_to_list at hsync
    rw [hok] at hsync
    dsimp only at hsync
    split at hsync
    · simp at hsync
    · rw [Except.ok.injEq, Prod.mk.injEq] at hsync
      obtain ⟨h1, -⟩ := hsync
      rw [← h1]

/-- Claim C6: an empty resolved ingredient list signals 404 "recipe not
found", distinct from the 400 "nothing to add" raised when ingredients
exist but none matched; in the latter case the computed skipped list holds
every resolved ingredient name in original order. -/
theorem C6_not_found_vs_no_matches (rid : Nat) (ings : List RecipeIngredient)
    (tbl : Nat → Option String) (c : MeijerClient)
    (netS : SearchRequest → HttpResult SearchBody) (netA : AddRequest → HttpResult Unit)
    (storeId : String) (resp : MatchResponse) (tr : List SearchRequest)
    (hok : match_recipe_ingredients rid ings tbl c netS storeId = .ok (resp, tr))
    (hall : ∀ m ∈ resp.items, m.matched = false) :
    add_recipe_to_list rid ings tbl c netS netA storeId
      = .error (.http 400 "No products matched — nothing to add")
    ∧ (buildListItems resp.items).2
        = ings.map (fun ri => resolveName (lookupLinkedName tbl ri.ingredient_id) ri.raw_text)
    ∧ ∀ (rid2 : Nat) (tbl2 : Nat → Option String) (c2 : MeijerClient)
        (nS2 : SearchRequest → HttpResult SearchBody)
        (nA2 : AddRequest → HttpResult Unit) (st2 : String),
        add_recipe_to_list rid2 [] tbl2 c2 nS2 nA2 st2
          = .error (.http 404 "Recipe not found or has no ingredients") := by
  obtain ⟨hne, hitems, -⟩ := aux_match_ok_inv rid ings tbl c netS storeId resp tr hok
  have hbuild := aux_buildListItems_unmatched resp.items hall
  have hskip : resp.items.map MergedRecord.ingredient
      = ings.map (fun ri => resolveName (lookupLinkedName tbl ri.ingredient_id) ri.raw_text) := by
    rw [hitems]
    unfold routerMatches
    rw [aux_mergeNeeded_map, aux_match_ingredients_map]
    simp [buildSearchItems, List.map_map, Function.comp]
  refine ⟨?_, ?_, ?_⟩
  · unfold add_recipe_to_list
    rw [hok]
    simp [hbuild]
  · rw [hbuild]
    exact hskip
  · intro rid2 tbl2 c2 nS2 nA2 st2
    rfl

/-- Witness for C6: the all-unmatched scenario yields the 400 condition with
skipped = ["flour"], and the empty recipe yields the distinct 404. -/
theorem C6_witness :
    add_recipe_to_list 1 ingsW tblW cliW netFailS netFailA "217"
      = .error (.http 400 "No products matched — nothing to add")
    ∧ (buildListItems respW.items).2 = ["flour"]
    ∧ add_recipe_to_list 2 [] tblW cliN netFailS netFailA "217"
        = .error (.http 404 "Recipe not found or has no ingredients") := by
  have h := C6_not_found_vs_no_matches 1 ingsW tblW cliW netFailS netFailA "217"
    respW trW rfl (by decide)
  exact ⟨h.1, h.2.1.trans (by decide), h.2.2 2 tblW cliN netFailS netFailA "217"⟩

/-- Witness for C5: matched prices 1.99 and 3.50 with an unmatched record in
between give an estimated cost of 5.49. -/
theorem C5_witness :
    respC5.estimated_cost = 549/100
    ∧ respC5.estimated_cost = round2 (matchedPriceSum respC5.items) := by
  have h := C5_cost_aggregation 1 ingsC5 tblW cliW netC5 "217" respC5 trC5 rfl
  have hmr : mrC5 = _ := aux_match_ok 1 ingsC5 tblW cliW netC5 "217" (by decide)
  have hitems : respC5.items = routerMatches ingsC5 tblW cliW netC5 "217" := by
    unfold respC5
    rw [hmr]
    rfl
  have hsum : matchedPriceSum (routerMatches ingsC5 tblW cliW netC5 "217") = 549/100 := by
    simp [matchedPriceSum, recordPrice, routerMatches, buildSearchItems, ingsC5,
      resolveName, lookupLinkedName, tblW, strOptTruthy,
      MeijerClient.match_ingredients, MeijerClient.search_best_match,
      MeijerClient.search_products, MeijerClient.is_configured, cliW, netC5,
      mkProductMatch, mergeNeeded, mergeOne, pyTruthyQ, pyOrQ, ratTruthy,
      show (199/100 : ℚ) ≠ 0 by norm_num, show (7/2 : ℚ) ≠ 0 by norm_num]
    norm_num
  refine ⟨?_, h.1⟩
  rw [h.1, hitems, hsum]
  exact aux_round2_fixed (549/100) 549 (by norm_num)
